import Mathlib

/-!
Shallow embedding of the SantaAdmin message-routing core.

Python strings are modelled as `List Char` (`Str`); the Python string
operations used by the dispatch pipeline (`str.lower`, `str.strip`,
`str.split`, `str.startswith`, `str.replace`, slicing) are translated
below.  `str.lower` is modelled char-wise on the character ranges that
occur in this code base (ASCII letters plus the Cyrillic letters used by
the bot's Ukrainian trigger phrases); it is idempotent and preserves
whitespace, as Python's `str.lower` does on these ranges.
-/

namespace Santa

abbrev Str := List Char

/-- Build a `Char` from a scalar value below the surrogate range. -/
def chOf (n : Nat) (h : n < 55296) : Char :=
  ⟨UInt32.ofNat' n (Char.isValidUInt32 n (Or.inl h)),
   Char.isValidChar_of_isValidCharNat n (Or.inl h)⟩

theorem chOf_toNat (n : Nat) (h : n < 55296) : (chOf n h).toNat = n := rfl

/-- Char-wise model of Python `str.lower` on the ranges used by the bot:
ASCII `A`-`Z`, Cyrillic `А`-`Я`, and `Ё Є І Ї Ґ`. -/
def lowCh (c : Char) : Char :=
  if h1 : 65 ≤ c.toNat ∧ c.toNat ≤ 90 then chOf (c.toNat + 32) (by omega)
  else if h2 : 1040 ≤ c.toNat ∧ c.toNat ≤ 1071 then chOf (c.toNat + 32) (by omega)
  else if h3 : c.toNat = 1025 then chOf 1105 (by omega)
  else if h4 : c.toNat = 1028 then chOf 1108 (by omega)
  else if h5 : c.toNat = 1030 then chOf 1110 (by omega)
  else if h6 : c.toNat = 1031 then chOf 1111 (by omega)
  else if h7 : c.toNat = 1168 then chOf 1169 (by omega)
  else c

/-- Char-wise model of Python `str.upper` on the same ranges. -/
def upCh (c : Char) : Char :=
  if h1 : 97 ≤ c.toNat ∧ c.toNat ≤ 122 then chOf (c.toNat - 32) (by omega)
  else if h2 : 1072 ≤ c.toNat ∧ c.toNat ≤ 1103 then chOf (c.toNat - 32) (by omega)
  else if h3 : c.toNat = 1105 then chOf 1025 (by omega)
  else if h4 : c.toNat = 1108 then chOf 1028 (by omega)
  else if h5 : c.toNat = 1110 then chOf 1030 (by omega)
  else if h6 : c.toNat = 1111 then chOf 1031 (by omega)
  else if h7 : c.toNat = 1169 then chOf 1168 (by omega)
  else c

/-- Python `str.lower`. -/
def lowerS (s : Str) : Str := s.map lowCh

/-- Python `str.upper`. -/
def upperS (s : Str) : Str := s.map upCh

/-- Python `str.strip()`: drop leading and trailing whitespace. -/
def stripS (s : Str) : Str :=
  ((s.dropWhile Char.isWhitespace).reverse.dropWhile Char.isWhitespace).reverse

/-- Helper for `splitWs`: scan with the (reversed) current word. -/
def splitWsAux : Str → Str → List Str
  | [], acc => if acc = [] then [] else [acc.reverse]
  | c :: cs, acc =>
    if c.isWhitespace then
      if acc = [] then splitWsAux cs [] else acc.reverse :: splitWsAux cs []
    else splitWsAux cs (c :: acc)

/-- Python `str.split()` with no argument: split on whitespace runs,
dropping empty pieces. -/
def splitWs (s : Str) : List Str := splitWsAux s []

/-- Helper for `replaceS`: when `skip` is positive, that many input
characters belong to an occurrence already rewritten and are dropped. -/
def replaceSAux (pat rep : Str) : Nat → Str → Str
  | _, [] => []
  | skip+1, _ :: cs => replaceSAux pat rep skip cs
  | 0, c :: cs =>
    if pat ≠ [] ∧ pat.isPrefixOf (c :: cs) then
      rep ++ replaceSAux pat rep (pat.length - 1) cs
    else c :: replaceSAux pat rep 0 cs

/-- Python `str.replace(pat, rep)`: replace every non-overlapping
occurrence of `pat`, scanning left to right.  (Only called with
non-empty `pat` in the source.) -/
def replaceS (pat rep s : Str) : Str := replaceSAux pat rep 0 s

theorem char_eq_iff_toNat {c d : Char} : c = d ↔ c.toNat = d.toNat := by
  constructor
  · intro h
    rw [h]
  · intro h
    apply Char.ext
    apply UInt32.eq_of_val_eq
    apply Fin.eq_of_val_eq
    exact h

theorem isWhitespace_iff_toNat (c : Char) :
    c.isWhitespace = true ↔ (c.toNat = 32 ∨ c.toNat = 9 ∨ c.toNat = 13 ∨ c.toNat = 10) := by
  simp only [Char.isWhitespace, Bool.or_eq_true, decide_eq_true_eq]
  rw [char_eq_iff_toNat, char_eq_iff_toNat, char_eq_iff_toNat, char_eq_iff_toNat]
  have h1 : (' ').toNat = 32 := rfl
  have h2 : ('\t').toNat = 9 := rfl
  have h3 : ('\r').toNat = 13 := rfl
  have h4 : ('\n').toNat = 10 := rfl
  rw [h1, h2, h3, h4]
  tauto

theorem lowCh_toNat (c : Char) : (lowCh c).toNat =
    if 65 ≤ c.toNat ∧ c.toNat ≤ 90 then c.toNat + 32
    else if 1040 ≤ c.toNat ∧ c.toNat ≤ 1071 then c.toNat + 32
    else if c.toNat = 1025 then 1105
    else if c.toNat = 1028 then 1108
    else if c.toNat = 1030 then 1110
    else if c.toNat = 1031 then 1111
    else if c.toNat = 1168 then 1169
    else c.toNat := by
  unfold lowCh
  by_cases h1 : 65 ≤ c.toNat ∧ c.toNat ≤ 90
  · rw [dif_pos h1, if_pos h1, chOf_toNat]
  · rw [dif_neg h1, if_neg h1]
    by_cases h2 : 1040 ≤ c.toNat ∧ c.toNat ≤ 1071
    · rw [dif_pos h2, if_pos h2, chOf_toNat]
    · rw [dif_neg h2, if_neg h2]
      by_cases h3 : c.toNat = 1025
      · rw [dif_pos h3, if_pos h3, chOf_toNat]
      · rw [dif_neg h3, if_neg h3]
        by_cases h4 : c.toNat = 1028
        · rw [dif_pos h4, if_pos h4, chOf_toNat]
        · rw [dif_neg h4, if_neg h4]
          by_cases h5 : c.toNat = 1030
          · rw [dif_pos h5, if_pos h5, chOf_toNat]
          · rw [dif_neg h5, if_neg h5]
            by_cases h6 : c.toNat = 1031
            · rw [dif_pos h6, if_pos h6, chOf_toNat]
            · rw [dif_neg h6, if_neg h6]
              by_cases h7 : c.toNat = 1168
              · rw [dif_pos h7, if_pos h7, chOf_toNat]
              · rw [dif_neg h7, if_neg h7]

theorem lowCh_isWhitespace (c : Char) : (lowCh c).isWhitespace = c.isWhitespace := by
  rw [Bool.eq_iff_iff, isWhitespace_iff_toNat, isWhitespace_iff_toNat, lowCh_toNat]
  split_ifs <;> omega

set_option maxHeartbeats 1600000 in
theorem lowCh_lowCh (c : Char) : lowCh (lowCh c) = lowCh c := by
  have h := lowCh_toNat c
  have h2 := lowCh_toNat (lowCh c)
  rw [char_eq_iff_toNat]
  generalize hk : (lowCh (lowCh c)).toNat = k at h2 ⊢
  generalize hm : (lowCh c).toNat = m at h h2 ⊢
  split_ifs at h h2 <;> omega

theorem lowerS_lowerS (s : Str) : lowerS (lowerS s) = lowerS s := by
  unfold lowerS
  rw [List.map_map]
  congr 1
  funext c
  exact lowCh_lowCh c

theorem stripS_lowerS (s : Str) : stripS (lowerS s) = lowerS (stripS s) := by
  have hcomp : (Char.isWhitespace ∘ lowCh) = Char.isWhitespace := by
    funext c
    simp only [Function.comp_apply, lowCh_isWhitespace]
  unfold stripS lowerS
  rw [List.dropWhile_map, hcomp, ← List.map_reverse, List.dropWhile_map, hcomp,
      ← List.map_reverse]

/-- The normalisation applied to the inbound text at the top of
`handle_text_commands`: `update.message.text.strip().lower()`. -/
def normText (raw : Str) : Str := lowerS (stripS raw)

theorem normText_lowerS (raw : Str) : normText (lowerS raw) = normText raw := by
  unfold normText
  rw [stripS_lowerS, lowerS_lowerS]

/-! ## Data model (version2_database.py)

Tables are modelled as lists of rows; SQLite `fetchone` on a keyed
`SELECT` is `List.find?`.  `sqlite3.connect` is called without
`PRAGMA foreign_keys = ON`, so SQLite's default applies: foreign-key
clauses (including `ON DELETE CASCADE` on `personal_command_media`)
are **not** enforced at runtime.  The store operations below model that
actual runtime behaviour. -/

/-- Row of `personal_commands` (chat-scoped template command). -/
structure TemplateCmd where
  id : Nat
  chatId : Int
  name : Str
  template : Str
  deriving DecidableEq, Repr

/-- Row of `personal_command_media`. -/
structure MediaRow where
  id : Nat
  commandId : Nat
  mediaType : String
  fileId : Str
  deriving DecidableEq, Repr

/-- Row of `command_aliases`. -/
structure AliasRow where
  chatId : Int
  aliasName : Str
  target : Str
  deriving DecidableEq, Repr

/-- Row of `online_modes` (broadcast sessions, keyed by `user_id`). -/
structure ModeRow where
  userId : Int
  mode : String
  startedAt : Nat
  lastActivity : Nat
  sourceChatId : Option Int
  deriving DecidableEq, Repr

/-- A resolved user reference (DB row, Telegram lookup result, or the
author of a replied-to message): an id plus an optional raw name. -/
structure UserRef where
  uid : Int
  name? : Option Str
  deriving DecidableEq, Repr

/-- `Database.get_command_alias`: `SELECT target_command FROM
command_aliases WHERE chat_id = ? AND alias_name = ?` with the queried
name lowercased. -/
def getCommandAlias (tbl : List AliasRow) (chat : Int) (name : Str) : Option Str :=
  (tbl.find? (fun r => decide (r.chatId = chat ∧ r.aliasName = lowerS name))).map
    (fun r => r.target)

/-- `Database.get_all_personal_commands` for one chat: all rows whose
`chat_id` matches (the `ORDER BY command_name` order is captured by the
order of the list). -/
def getAllPersonalCommands (tbl : List TemplateCmd) (chat : Int) : List TemplateCmd :=
  tbl.filter (fun r => decide (r.chatId = chat))

/-- `Database.get_personal_command_media`: all media rows keyed to a
command id. -/
def getPersonalCommandMedia (tbl : List MediaRow) (cid : Nat) : List MediaRow :=
  tbl.filter (fun r => decide (r.commandId = cid))

/-- `Database.delete_personal_command`: `DELETE FROM personal_commands
WHERE chat_id = ? AND command_name = ?` (lowercased name).  Because the
connection never enables `PRAGMA foreign_keys`, the `ON DELETE CASCADE`
declared on `personal_command_media` does not fire: only the command
table changes. -/
def deletePersonalCommand (cmds : List TemplateCmd) (media : List MediaRow)
    (chat : Int) (name : Str) : List TemplateCmd × List MediaRow :=
  (cmds.filter (fun r => decide (¬ (r.chatId = chat ∧ r.name = lowerS name))), media)

/-- `Database.get_online_mode`: `SELECT mode FROM online_modes WHERE
user_id = ?`, `fetchone`. -/
def getOnlineMode (tbl : List ModeRow) (uid : Int) : Option String :=
  (tbl.find? (fun r => decide (r.userId = uid))).map (fun r => r.mode)

/-- `Database.get_online_mode_source`. -/
def getOnlineModeSource (tbl : List ModeRow) (uid : Int) : Option Int :=
  (tbl.find? (fun r => decide (r.userId = uid))).bind (fun r => r.sourceChatId)

/-- `Database.set_online_mode`: `INSERT OR REPLACE INTO online_modes`;
`user_id` is the primary key, so a conflicting row is deleted and the
new row inserted. -/
def setOnlineMode (tbl : List ModeRow) (uid : Int) (mode : String)
    (src : Option Int) (now : Nat) : List ModeRow :=
  tbl.filter (fun r => decide (r.userId ≠ uid)) ++ [⟨uid, mode, now, now, src⟩]

/-- `Database.remove_online_mode`: `DELETE FROM online_modes WHERE
user_id = ?`. -/
def removeOnlineMode (tbl : List ModeRow) (uid : Int) : List ModeRow :=
  tbl.filter (fun r => decide (r.userId ≠ uid))

/-- `Database.update_online_activity`: `UPDATE online_modes SET
last_activity = ? WHERE user_id = ?`. -/
def updateOnlineActivity (tbl : List ModeRow) (uid : Int) (now : Nat) : List ModeRow :=
  tbl.map (fun r => if r.userId = uid then { r with lastActivity := now } else r)

/-! ## Bot environment and helpers (src/src/bot.py) -/

/-- The collaborators and persistent state the dispatch pipeline reads:
config (`OWNER_IDS`, `USER_CHAT_ID`), the role table, the say-block
table, the template/media/alias tables, the `online_modes` table, the
local user directory (`db.get_user_by_username`), the Telegram handle
lookup (`context.bot.get_chat`), custom display names
(`db.get_custom_name`), and the `COMMAND_HANDLERS` registry. -/
structure Env where
  ownerIds : List Int
  userChatId : Option Int
  role : Int → Option String
  sayBlocked : Int → Bool
  templates : List TemplateCmd
  media : List MediaRow
  aliases : List AliasRow
  modes : List ModeRow
  dbUserByUsername : Str → Option UserRef
  tgUserByUsername : Str → Option UserRef
  customName : Int → Option Str
  handlers : Str → Bool

/-- `is_owner`. -/
def isOwner (env : Env) (uid : Int) : Bool := uid ∈ env.ownerIds

/-- `is_head_admin`. -/
def isHeadAdmin (env : Env) (uid : Int) : Bool := env.role uid = some "head_admin"

/-- `is_gnome`. -/
def isGnome (env : Env) (uid : Int) : Bool := env.role uid = some "gnome"

/-- `can_use_bot`. -/
def canUseBot (env : Env) (uid : Int) : Bool :=
  isOwner env uid || isHeadAdmin env uid || isGnome env uid

/-- The literal `"Невідомий"` fallback name. -/
def unknownName : Str := "Невідомий".data

/-- Python `x or "Невідомий"` on an optional name (`None` and the empty
string are both falsy). -/
def orUnknown (s? : Option Str) : Str :=
  match s? with
  | none => unknownName
  | some s => if s = [] then unknownName else s

/-- `get_display_name(user_id, default)`: custom name from the DB if
present, else the supplied default (itself guarded by `or "Невідомий"`
at every call site). -/
def getDisplayName (env : Env) (uid : Int) (dflt? : Option Str) : Str :=
  match env.customName uid with
  | some n => n
  | none => orUnknown dflt?

/-- The single-quote character, used in the `tg://user` HTML links. -/
def sq : Char := chOf 39 (by omega)

/-- `f"<a href='tg://user?id={uid}'>{name}</a>"`. -/
def mkMention (uid : Int) (name : Str) : Str :=
  "<a href=".data ++ [sq] ++ "tg://user?id=".data ++ (toString uid).data ++ [sq] ++
    ">".data ++ name ++ "</a>".data

/-- `safe_send_message`: strip the characters `<>&`, `@#`, `[]`, then
`strip()` whitespace. -/
def safeSend (s : Str) : Str :=
  stripS (s.filter (fun c =>
    !(c = '<' || c = '>' || c = '&' || c = '@' || c = '#' || c = '[' || c = ']')))

/-- Character class `[a-zA-Z0-9_]` of the username pattern. -/
def isUserChar (c : Char) : Bool := c.isAlphanum || c = '_'

/-- `re.search(r'@([a-zA-Z0-9_]{5,32})', s)`: leftmost `@` followed by
at least 5 username characters; the greedy quantifier takes at most 32. -/
def findUsername : Str → Option Str
  | [] => none
  | c :: cs =>
    if c = '@' then
      let run := cs.takeWhile isUserChar
      if 5 ≤ run.length then some (run.take 32) else findUsername cs
    else findUsername cs

/-- Character class `[A-F0-9]` of the backup-code pattern. -/
def isHexUp (c : Char) : Bool := (65 ≤ c.toNat && c.toNat ≤ 70) || c.isDigit

/-- Scan for `код:` (uppercased by the caller, case-insensitive pattern)
followed by optional whitespace and 12 `[A-F0-9]` characters. -/
def searchCode : Str → Option Str
  | [] => none
  | c :: cs =>
    if ("КОД:".data).isPrefixOf (c :: cs) then
      let afterWs := ((c :: cs).drop 4).dropWhile Char.isWhitespace
      let code := afterWs.take 12
      if code.length = 12 && code.all isHexUp then some code
      else searchCode cs
    else searchCode cs

/-- `re.search(r'код:\s*([A-F0-9]{12})', text.upper(), re.IGNORECASE)`. -/
def findBackupCode (text : Str) : Option Str := searchCode (upperS text)

/-- `re.match(r'^[A-F0-9]{12}$', text.upper())`. -/
def isBareBackupCode (text : Str) : Bool :=
  (upperS text).length = 12 && (upperS text).all isHexUp

/-! ## Text dispatch pipeline (`handle_text_commands`) -/

/-- One inbound text event as seen by `handle_text_commands`:
`update.message.text`, `update.effective_user`, `update.effective_chat`,
and the author of the replied-to message, if any. -/
structure Event where
  rawText? : Option Str
  userId? : Option Int
  chatId : Int
  fullName? : Option Str
  username? : Option Str
  replyUser? : Option UserRef

/-- The outbound effect of one run of `handle_text_commands`.  Exactly
one constructor per terminal point of the function. -/
inductive Outcome where
  | noEvent
  | templateSent (rendered : Str) (pool : List MediaRow)
  | notAdmin
  | sessionNoDest
  | sessionForward (dest : Int) (body : Str)
  | sessionIdle
  | phraseCmd (name : String) (args : List Str)
  | restoreImport (code : Str)
  | restoreDenied
  | aliasInvoke (cmd : Str) (args : List Str)
  | aliasNoHandler (cmd : Str) (args : List Str)
  | noAction
  deriving DecidableEq, Repr

/-- `len(cmd['name'].split())`: word count of a template command name. -/
def wcName (c : TemplateCmd) : Nat := (splitWs c.name).length

/-- Stable insertion into a list sorted by descending word count: the
inserted element goes before the first element of smaller-or-equal
word count. -/
def insertByWc (a : TemplateCmd) : List TemplateCmd → List TemplateCmd
  | [] => [a]
  | b :: bs => if wcName a < wcName b then b :: insertByWc a bs else a :: b :: bs

/-- `all_commands.sort(key=lambda x: len(x['name'].split()), reverse=True)`:
Python's stable descending sort.  A stable sort by a fixed key is
extensionally unique, so this stable insertion sort produces the same
list as CPython's sort. -/
def sortTemplates (l : List TemplateCmd) : List TemplateCmd :=
  l.foldr insertByWc []

/-- The template-match step: after sorting, pick the first command whose
lowercased name is a prefix of the lowercased text. -/
def selectTemplate (l : List TemplateCmd) (text : Str) : Option TemplateCmd :=
  (sortTemplates l).find? (fun c => (lowerS c.name).isPrefixOf (lowerS text))

/-- Secondary-participant resolution (bot.py 5743-5803): first `@username`
in the extra text, looked up in the local directory then via the
Telegram API; on failure, the replied-to author; else unresolved.  On a
handle hit the consumed `@username` token is removed from the extra
text. -/
def resolveTarget (env : Env) (replyUser? : Option UserRef) (extra : Str) :
    Option (Int × Str × Str) :=
  let fromReply : Option (Int × Str × Str) :=
    match replyUser? with
    | some r => some (r.uid, getDisplayName env r.uid (some (orUnknown r.name?)), extra)
    | none => none
  match findUsername extra with
  | some uname =>
    match env.dbUserByUsername uname with
    | some u => some (u.uid, getDisplayName env u.uid u.name?,
        stripS (replaceS ('@' :: uname) [] extra))
    | none =>
      match env.tgUserByUsername uname with
      | some u => some (u.uid, getDisplayName env u.uid (some (orUnknown u.name?)),
          stripS (replaceS ('@' :: uname) [] extra))
      | none => fromReply
  | none => fromReply

/-- Stages 2-4 of the pipeline on the normalised text: template match,
secondary-participant resolution, and placeholder substitution
(`@s1`, then `@s2`, then `@t`), paired with the command's media pool.
`none` means the template stage did not emit. -/
def runTemplate (env : Env) (chat uid : Int) (fullName? : Option Str)
    (replyUser? : Option UserRef) (text : Str) : Option (Str × List MediaRow) :=
  match selectTemplate (getAllPersonalCommands env.templates chat) text with
  | none => none
  | some cmd =>
    let extra := stripS (text.drop cmd.name.length)
    match resolveTarget env replyUser? extra with
    | none => none
    | some (tid, tname, extraOut) =>
      let s1 := mkMention uid (getDisplayName env uid (some (orUnknown fullName?)))
      let s2 := mkMention tid tname
      let rendered := replaceS ("@t".data) extraOut
        (replaceS ("@s2".data) s2 (replaceS ("@s1".data) s1 cmd.template))
      some (rendered, getPersonalCommandMedia env.media cmd.id)

/-- The template stage as a function of the raw inbound text: the text
is normalised (`.strip().lower()`) before matching and rendering. -/
def templateOutputFor (env : Env) (chat uid : Int) (fullName? : Option Str)
    (replyUser? : Option UserRef) (raw : Str) : Option (Str × List MediaRow) :=
  runTemplate env chat uid fullName? replyUser? (normText raw)

/-- Python `if update.effective_user.username` guard on an optional,
possibly empty handle. -/
def sigUsername (uname? : Option Str) : Str :=
  match uname? with
  | none => []
  | some u => if u = [] then [] else '@' :: safeSend u

/-- `f"\n\n— {author_name} {username}"`: the Signed-mode signature, with
the author name sanitised and defaulted.  The same expression is built
in `handle_text_commands` and in `handle_all_messages`. -/
def sayonSignature (fullName? uname? : Option Str) : Str :=
  "\n\n— ".data ++ safeSend (orUnknown fullName?) ++ " ".data ++ sigUsername uname?

/-- The session short-circuit body (bot.py 5885-5942), reached when the
actor has an active mode and passes the source-affinity check: forward
the raw message text to `USER_CHAT_ID`, signed for `sayon`, plain for
`sayson`; nothing is sent for an unrecognised stored mode. -/
def sessionStage (env : Env) (uid : Int) (raw : Str) (fullName? uname? : Option Str)
    (mode : String) : Outcome :=
  match env.userChatId with
  | none => .sessionNoDest
  | some dest =>
    if mode = "sayon" then
      .sessionForward dest (safeSend raw ++ sayonSignature fullName? uname?)
    else if mode = "sayson" then .sessionForward dest (safeSend raw)
    else .sessionIdle

/-- The alias-resolution stage (bot.py 6057-6085): look up only the
first whitespace-delimited token; on a hit, the remaining tokens become
the arguments, and the target command is dispatched through
`COMMAND_HANDLERS` after dropping leading slashes. -/
def aliasStage (env : Env) (chat : Int) (text : Str) : Outcome :=
  let firstWord := (splitWs text).headD []
  match getCommandAlias env.aliases chat firstWord with
  | some target =>
    let args := (splitWs text).drop 1
    let cmd := lowerS (target.dropWhile (fun c => c = '/'))
    if env.handlers cmd then .aliasInvoke cmd args else .aliasNoHandler cmd args
  | none => .noAction

/-- The restore-token stage (bot.py 6029-6055): labelled or bare
12-character backup code, Owner-gated, else fall through to aliases. -/
def restoreStage (env : Env) (uid chat : Int) (text : Str) : Outcome :=
  match findBackupCode text with
  | some code => if isOwner env uid then .restoreImport code else .restoreDenied
  | none =>
    if isBareBackupCode text then
      if isOwner env uid then .restoreImport (upperS text) else .restoreDenied
    else aliasStage env chat text

/-- The phrase-command stage (bot.py 5944-6027): the fixed table of
natural-language phrases, then restore tokens, then aliases.  Handler
lookup through `COMMAND_HANDLERS`/`globals()` resolves to the named
canonical commands, which are all defined in the module. -/
def phraseStages (env : Env) (uid chat : Int) (text : Str) : Outcome :=
  if text = "давай права".data ∨ text = "дай адмінку".data ∨
      text = "дай все права".data ∨ text = "давай адмінку".data then
    .phraseCmd "giveperm" []
  else if text = "дати звичайну адміну".data ∨ text = "дати звичайну адмінку".data ∨
      text = "дати адмінку звичайну".data ∨ text = "дай звичайну адмінку".data ∨
      text = "звичайна адмінка".data ∨ text = "обичная админка".data then
    .phraseCmd "giveperm_simple" []
  else if text = "забрати права".data ∨ text = "зняти адмінку".data then
    .phraseCmd "removeperm" []
  else if text = "адміністратори".data ∨ text = "администраторы".data ∨
      text = "адміни".data then
    .phraseCmd "admin_list" []
  else if ("одружити".data).isPrefixOf text then
    .phraseCmd "marry" ((splitWs text).drop 1)
  else if ("розлучити".data).isPrefixOf text then
    .phraseCmd "unmarry" (splitWs (stripS (text.drop ("розлучити".data).length)))
  else if ("розлучи".data).isPrefixOf text then
    .phraseCmd "unmarry" (splitWs (stripS (text.drop ("розлучи".data).length)))
  else restoreStage env uid chat text

/-- Everything after the template stage (bot.py 5859 onwards): the
role gate, then the session short-circuit (with its source-affinity
test), then phrase/restore/alias stages. -/
def laterStages (env : Env) (ev : Event) (uid : Int) (raw text : Str) : Outcome :=
  if !(isOwner env uid || decide (env.role uid = some "head_admin")) then .notAdmin
  else
    match getOnlineMode env.modes uid with
    | some mode =>
      if isOwner env uid ||
          decide (getOnlineModeSource env.modes uid = some ev.chatId) then
        sessionStage env uid raw ev.fullName? ev.username? mode
      else phraseStages env uid ev.chatId text
    | none => phraseStages env uid ev.chatId text

/-- `handle_text_commands`: the full text-dispatch pipeline for one
inbound event. -/
def dispatch (env : Env) (ev : Event) : Outcome :=
  match ev.rawText? with
  | none => .noEvent
  | some raw =>
    if raw = [] then .noEvent
    else
      match ev.userId? with
      | none => .noEvent
      | some uid =>
        match templateOutputFor env ev.chatId uid ev.fullName? ev.replyUser? raw with
        | some (rendered, pool) => .templateSent rendered pool
        | none => laterStages env ev uid raw (normText raw)

/-! ## Broadcast forwarding (`handle_all_messages`, bot.py 2076-2182) -/

/-- One inbound message as seen by `handle_all_messages`. -/
structure MsgEvent where
  uid : Int
  chatId : Int
  text? : Option Str
  caption? : Option Str
  fullName? : Option Str
  username? : Option Str
  messageId : Nat

/-- What the forward rule emits: a rendered text message, or the
message unit forwarded as-is (with the standalone signature message
that Signed mode sends afterwards). -/
inductive FwdAction where
  | sendText (dest : Int) (body : Str)
  | forwardRaw (dest : Int) (srcChat : Int) (msgId : Nat) (followUp : Option Str)
  deriving DecidableEq, Repr

/-- Python truthiness of an optional string (`None` and `""` are falsy). -/
def truthy (s? : Option Str) : Option Str :=
  match s? with
  | none => none
  | some s => if s = [] then none else some s

/-- The forward rule (bot.py 2131-2178): render text or caption, signed
in `sayon` mode, plain in `sayson` mode; with neither text nor caption,
forward the message unit as-is (`sayon` then sends the stripped
signature as its own message).  An unrecognised stored mode sends
nothing. -/
def forwardAction (mode : String) (dest : Int) (ev : MsgEvent) : Option FwdAction :=
  if mode = "sayon" then
    let signature := sayonSignature ev.fullName? ev.username?
    match truthy ev.text? with
    | some t => some (.sendText dest (safeSend t ++ signature))
    | none =>
      match truthy ev.caption? with
      | some ca => some (.sendText dest (safeSend ca ++ signature))
      | none => some (.forwardRaw dest ev.chatId ev.messageId (some (stripS signature)))
  else if mode = "sayson" then
    match truthy ev.text? with
    | some t => some (.sendText dest (safeSend t))
    | none =>
      match truthy ev.caption? with
      | some ca => some (.sendText dest (safeSend ca))
      | none => some (.forwardRaw dest ev.chatId ev.messageId none)
  else none

/-- The `-myname` / `-mym` / `-mymt` deletion shortcuts that return
before the forwarding logic (bot.py 2090-2107). -/
def isDashDelete (t? : Option Str) : Bool :=
  match t? with
  | none => false
  | some t =>
    if t = [] then false
    else ("-".data).isPrefixOf t &&
      (stripS t = "-myname".data || stripS t = "-mym".data || stripS t = "-mymt".data)

/-- `handle_all_messages`: guards (`can_use_bot`, dash shortcuts,
`USER_CHAT_ID` configured), then the active-mode check, then the
source-affinity rule (Owner exempt), then the forward rule.  `none`
means no forward is performed. -/
def handleAllMessages (env : Env) (ev : MsgEvent) : Option FwdAction :=
  if !canUseBot env ev.uid then none
  else if isDashDelete ev.text? then none
  else
    match env.userChatId with
    | none => none
    | some dest =>
      match getOnlineMode env.modes ev.uid with
      | none => none
      | some mode =>
        if !isOwner env ev.uid &&
            !decide (getOnlineModeSource env.modes ev.uid = some ev.chatId) then none
        else forwardAction mode dest ev

/-! ## Session toggles (`sayon_command` / `sayson_command`) -/

/-- The common state effect of `sayon_command` (mode `"sayon"`) and
`sayson_command` (mode `"sayson"`): after the `can_use_bot` and
`is_say_blocked` guards, re-invoking the mode already held removes the
session, anything else (no session, or the other mode) writes a fresh
row for this mode with the invoking chat as source. -/
def toggleSayMode (env : Env) (tbl : List ModeRow) (m : String) (uid chat : Int)
    (now : Nat) : List ModeRow :=
  if !canUseBot env uid then tbl
  else if env.sayBlocked uid then tbl
  else if getOnlineMode tbl uid = some m then removeOnlineMode tbl uid
  else setOnlineMode tbl uid m (some chat) now

/-- `sayon_command` (bot.py 1876-1900), state effect only. -/
def sayonCommand (env : Env) (tbl : List ModeRow) (uid chat : Int) (now : Nat) :
    List ModeRow :=
  toggleSayMode env tbl "sayon" uid chat now

/-- `sayson_command` (bot.py 1942-1971), state effect only. -/
def saysonCommand (env : Env) (tbl : List ModeRow) (uid chat : Int) (now : Nat) :
    List ModeRow :=
  toggleSayMode env tbl "sayson" uid chat now

/-- A sequence of `update_online_activity` writes, as performed by
intervening forwards. -/
def applyActivities (tbl : List ModeRow) (acts : List (Int × Nat)) : List ModeRow :=
  acts.foldl (fun t a => updateOnlineActivity t a.1 a.2) tbl

/-! ## Lemmas about the template sort -/

theorem mem_insertByWc {x a : TemplateCmd} :
    ∀ {l : List TemplateCmd}, x ∈ insertByWc a l ↔ x = a ∨ x ∈ l := by
  intro l
  induction l with
  | nil => simp [insertByWc]
  | cons b bs ih =>
    unfold insertByWc
    split
    · simp only [List.mem_cons, ih]
      tauto
    · simp only [List.mem_cons]

theorem pairwise_insertByWc {a : TemplateCmd} :
    ∀ {l : List TemplateCmd}, l.Pairwise (fun p q => wcName q ≤ wcName p) →
      (insertByWc a l).Pairwise (fun p q => wcName q ≤ wcName p) := by
  intro l
  induction l with
  | nil =>
    intro _
    simp [insertByWc]
  | cons b bs ih =>
    intro hpw
    rw [List.pairwise_cons] at hpw
    obtain ⟨hb, hbs⟩ := hpw
    unfold insertByWc
    split
    · rename_i hlt
      rw [List.pairwise_cons]
      constructor
      · intro x hx
        rcases mem_insertByWc.mp hx with rfl | hx
        · omega
        · exact hb x hx
      · exact ih hbs
    · rename_i hge
      rw [List.pairwise_cons]
      constructor
      · intro x hx
        rcases List.mem_cons.mp hx with rfl | hx
        · omega
        · have := hb x hx
          omega
      · rw [List.pairwise_cons]
        exact ⟨hb, hbs⟩

theorem pairwise_sortTemplates (l : List TemplateCmd) :
    (sortTemplates l).Pairwise (fun p q => wcName q ≤ wcName p) := by
  induction l with
  | nil => simp [sortTemplates]
  | cons x xs ih => exact pairwise_insertByWc ih

theorem mem_sortTemplates {x : TemplateCmd} :
    ∀ {l : List TemplateCmd}, x ∈ sortTemplates l ↔ x ∈ l := by
  intro l
  induction l with
  | nil => simp [sortTemplates]
  | cons b bs ih =>
    show x ∈ insertByWc b (sortTemplates bs) ↔ _
    rw [mem_insertByWc, ih, List.mem_cons]

theorem find?_pairwise_wc {p : TemplateCmd → Bool} :
    ∀ (l : List TemplateCmd), l.Pairwise (fun a b => wcName b ≤ wcName a) →
      ∀ {c}, l.find? p = some c → ∀ x ∈ l, p x = true → wcName x ≤ wcName c := by
  intro l
  induction l with
  | nil => simp
  | cons b bs ih =>
    intro hpw c hfind x hx hpx
    rw [List.pairwise_cons] at hpw
    by_cases hpb : p b = true
    · rw [List.find?_cons_of_pos _ hpb] at hfind
      obtain rfl : b = c := by injection hfind
      rcases List.mem_cons.mp hx with rfl | hx
      · exact Nat.le_refl _
      · exact hpw.1 x hx
    · rw [List.find?_cons_of_neg _ hpb] at hfind
      rcases List.mem_cons.mp hx with rfl | hx
      · exact absurd hpx hpb
      · exact ih hpw.2 hfind x hx hpx

/-! ## Claim C4 -/

/-- C4: for every chat and text, at most one TemplateCommand is selected
per dispatched event, and the selected one always has the greatest
word-count of its name among all commands whose lowercased name is a
prefix of the lowercased text. -/
theorem template_match_longest_wordcount
    (tbl : List TemplateCmd) (chat : Int) (text : Str) (c : TemplateCmd)
    (h : selectTemplate (getAllPersonalCommands tbl chat) text = some c) :
    (∀ c', selectTemplate (getAllPersonalCommands tbl chat) text = some c' → c' = c) ∧
    (lowerS c.name).isPrefixOf (lowerS text) = true ∧
    ∀ x ∈ getAllPersonalCommands tbl chat,
      (lowerS x.name).isPrefixOf (lowerS text) = true → wcName x ≤ wcName c := by
  unfold selectTemplate at h
  refine ⟨?_, ?_, ?_⟩
  · intro c' h'
    unfold selectTemplate at h'
    rw [h] at h'
    exact (Option.some.inj h').symm
  · have h2 := List.find?_some h
    exact h2
  · intro x hx hpx
    exact find?_pairwise_wc _ (pairwise_sortTemplates _) h x
      (mem_sortTemplates.mpr hx) hpx

/-- Template table for the C4 witness: a one-word and a two-word
command registered for chat 100. -/
def wcDemoTbl : List TemplateCmd :=
  [⟨1, 100, "бан".data, "@s1 карає @s2".data⟩,
   ⟨2, 100, "бан тихо".data, "@s1 тихо карає @s2".data⟩]

/-- The command the C4 witness expects to be selected. -/
def wcDemoCmd : TemplateCmd := ⟨2, 100, "бан тихо".data, "@s1 тихо карає @s2".data⟩

theorem template_match_longest_wordcount_witness :
    (lowerS wcDemoCmd.name).isPrefixOf (lowerS ("бан тихо 123".data)) = true ∧
    ∀ x ∈ getAllPersonalCommands wcDemoTbl 100,
      (lowerS x.name).isPrefixOf (lowerS ("бан тихо 123".data)) = true →
        wcName x ≤ wcName wcDemoCmd :=
  (template_match_longest_wordcount wcDemoTbl 100 ("бан тихо 123".data) wcDemoCmd
    (by decide)).2

/-! ## Lemmas about the online-mode store -/

theorem getOnlineMode_set_self (tbl : List ModeRow) (uid : Int) (m : String)
    (src : Option Int) (now : Nat) :
    getOnlineMode (setOnlineMode tbl uid m src now) uid = some m := by
  unfold getOnlineMode setOnlineMode
  rw [List.find?_append]
  have hleft : (tbl.filter (fun r => decide (r.userId ≠ uid))).find?
      (fun r => decide (r.userId = uid)) = none := by
    cases hf : (tbl.filter (fun r => decide (r.userId ≠ uid))).find?
        (fun r => decide (r.userId = uid)) with
    | none => rfl
    | some r =>
      have hp := List.find?_some hf
      have hm := List.mem_of_find?_eq_some hf
      rw [List.mem_filter] at hm
      simp only [decide_eq_true_eq] at hp
      simp only [decide_eq_true_eq] at hm
      exact absurd hp hm.2
  rw [hleft]
  simp

theorem getOnlineModeSource_set_self (tbl : List ModeRow) (uid : Int) (m : String)
    (src : Option Int) (now : Nat) :
    getOnlineModeSource (setOnlineMode tbl uid m src now) uid = src := by
  unfold getOnlineModeSource setOnlineMode
  rw [List.find?_append]
  have hleft : (tbl.filter (fun r => decide (r.userId ≠ uid))).find?
      (fun r => decide (r.userId = uid)) = none := by
    cases hf : (tbl.filter (fun r => decide (r.userId ≠ uid))).find?
        (fun r => decide (r.userId = uid)) with
    | none => rfl
    | some r =>
      have hp := List.find?_some hf
      have hm := List.mem_of_find?_eq_some hf
      rw [List.mem_filter] at hm
      simp only [decide_eq_true_eq] at hp
      simp only [decide_eq_true_eq] at hm
      exact absurd hp hm.2
  rw [hleft]
  simp

theorem getOnlineMode_remove_self (tbl : List ModeRow) (uid : Int) :
    getOnlineMode (removeOnlineMode tbl uid) uid = none := by
  unfold getOnlineMode removeOnlineMode
  cases hf : (tbl.filter (fun r => decide (r.userId ≠ uid))).find?
      (fun r => decide (r.userId = uid)) with
  | none => rfl
  | some r =>
    have hp := List.find?_some hf
    have hm := List.mem_of_find?_eq_some hf
    rw [List.mem_filter] at hm
    simp only [decide_eq_true_eq] at hp
    simp only [decide_eq_true_eq] at hm
    exact absurd hp hm.2

theorem getOnlineMode_updateActivity (tbl : List ModeRow) (u uid : Int) (now : Nat) :
    getOnlineMode (updateOnlineActivity tbl u now) uid = getOnlineMode tbl uid := by
  unfold getOnlineMode updateOnlineActivity
  rw [List.find?_map]
  have hpred : ((fun r : ModeRow => decide (r.userId = uid)) ∘
      (fun r : ModeRow => if r.userId = u then { r with lastActivity := now } else r)) =
      (fun r : ModeRow => decide (r.userId = uid)) := by
    funext r
    simp only [Function.comp_apply]
    split <;> rfl
  rw [hpred]
  cases hf : tbl.find? (fun r => decide (r.userId = uid)) with
  | none => rfl
  | some r =>
    by_cases hru : r.userId = u
    · simp [hru]
    · simp [hru]

theorem getOnlineMode_applyActivities (acts : List (Int × Nat)) :
    ∀ (tbl : List ModeRow) (uid : Int),
      getOnlineMode (applyActivities tbl acts) uid = getOnlineMode tbl uid := by
  induction acts with
  | nil =>
    intro tbl uid
    rfl
  | cons a as ih =>
    intro tbl uid
    show getOnlineMode (applyActivities (updateOnlineActivity tbl a.1 a.2) as) uid = _
    rw [ih, getOnlineMode_updateActivity]

/-! ## Claim C7 -/

/-- C7: for a principal who passes the `can_use_bot` / `is_say_blocked`
guards and is not already in mode `m`, invoking the mode-`m` toggle
twice in succession returns the session state to Inactive, regardless
of any forwards (activity updates) performed in between. -/
theorem toggle_pair_returns_inactive
    (env : Env) (tbl : List ModeRow) (m : String) (uid chat chat' : Int)
    (now now' : Nat) (acts : List (Int × Nat))
    (hc : canUseBot env uid = true) (hb : env.sayBlocked uid = false)
    (hm : getOnlineMode tbl uid ≠ some m) :
    getOnlineMode
      (toggleSayMode env
        (applyActivities (toggleSayMode env tbl m uid chat now) acts)
        m uid chat' now') uid = none := by
  have hstep1 : toggleSayMode env tbl m uid chat now =
      setOnlineMode tbl uid m (some chat) now := by
    unfold toggleSayMode
    simp [hc, hb, hm]
  rw [hstep1]
  have hmode : getOnlineMode
      (applyActivities (setOnlineMode tbl uid m (some chat) now) acts) uid = some m := by
    rw [getOnlineMode_applyActivities, getOnlineMode_set_self]
  unfold toggleSayMode
  simp [hc, hb, hmode, getOnlineMode_remove_self]

/-- Environment for the session-toggle witnesses: principal 9 is an
Owner, not say-blocked. -/
def sessDemoEnv : Env :=
  { ownerIds := [9], userChatId := some 42,
    role := fun _ => none, sayBlocked := fun _ => false,
    templates := [], media := [], aliases := [], modes := [],
    dbUserByUsername := fun _ => none, tgUserByUsername := fun _ => none,
    customName := fun _ => none, handlers := fun _ => false }

theorem toggle_pair_returns_inactive_witness :
    getOnlineMode
      (toggleSayMode sessDemoEnv
        (applyActivities (toggleSayMode sessDemoEnv [] "sayon" 9 500 0) [(9, 5)])
        "sayon" 9 500 7) 9 = none :=
  toggle_pair_returns_inactive sessDemoEnv [] "sayon" 9 500 500 0 7 [(9, 5)]
    (by decide) (by decide) (by decide)

/-! ## Claim C9 -/

/-- Number of `online_modes` rows held by one principal. -/
def sessionCount (tbl : List ModeRow) (uid : Int) : Nat :=
  tbl.countP (fun r => decide (r.userId = uid))

/-- The BroadcastSession invariant: at most one session per principal. -/
def atMostOneSession (tbl : List ModeRow) : Prop :=
  ∀ uid, sessionCount tbl uid ≤ 1

theorem sessionCount_filter_ne (tbl : List ModeRow) (uid : Int) :
    sessionCount (tbl.filter (fun r => decide (r.userId ≠ uid))) uid = 0 := by
  unfold sessionCount
  rw [List.countP_eq_zero]
  intro r hr
  rw [List.mem_filter] at hr
  simp only [decide_eq_true_eq] at hr ⊢
  exact hr.2

theorem atMostOneSession_set (tbl : List ModeRow) (uid : Int) (m : String)
    (src : Option Int) (now : Nat) (h : atMostOneSession tbl) :
    atMostOneSession (setOnlineMode tbl uid m src now) := by
  intro u
  unfold sessionCount setOnlineMode
  rw [List.countP_append]
  by_cases hu : u = uid
  · subst hu
    have h0 := sessionCount_filter_ne tbl u
    unfold sessionCount at h0
    rw [h0]
    simp
  · have hle : (tbl.filter (fun r => decide (r.userId ≠ uid))).countP
        (fun r => decide (r.userId = u)) ≤ sessionCount tbl u :=
      (List.filter_sublist tbl).countP_le _
    have hrow : List.countP (fun r => decide (r.userId = u))
        [(⟨uid, m, now, now, src⟩ : ModeRow)] = 0 := by
      simp [Ne.symm hu]
    rw [hrow]
    have := h u
    omega

theorem atMostOneSession_remove (tbl : List ModeRow) (uid : Int)
    (h : atMostOneSession tbl) : atMostOneSession (removeOnlineMode tbl uid) := by
  intro u
  have hle : sessionCount (removeOnlineMode tbl uid) u ≤ sessionCount tbl u :=
    (List.filter_sublist tbl).countP_le _
  have := h u
  omega

theorem atMostOneSession_update (tbl : List ModeRow) (uid : Int) (now : Nat)
    (h : atMostOneSession tbl) : atMostOneSession (updateOnlineActivity tbl uid now) := by
  intro u
  unfold sessionCount updateOnlineActivity
  rw [List.countP_map]
  have hpred : ((fun r : ModeRow => decide (r.userId = u)) ∘
      (fun r : ModeRow => if r.userId = uid then { r with lastActivity := now } else r)) =
      (fun r : ModeRow => decide (r.userId = u)) := by
    funext r
    simp only [Function.comp_apply]
    split <;> rfl
  rw [hpred]
  exact h u

/-- C9: every session-store operation preserves the at-most-one-session
invariant, and toggling the other mode while a session is active
replaces the row in place: the mode becomes the newly toggled one and
`source_chat_id` is reset to the invoking chat. -/
theorem session_store_one_per_principal :
    (∀ (tbl : List ModeRow) (uid : Int) (m : String) (src : Option Int) (now : Nat),
      atMostOneSession tbl → atMostOneSession (setOnlineMode tbl uid m src now)) ∧
    (∀ (tbl : List ModeRow) (uid : Int),
      atMostOneSession tbl → atMostOneSession (removeOnlineMode tbl uid)) ∧
    (∀ (tbl : List ModeRow) (uid : Int) (now : Nat),
      atMostOneSession tbl → atMostOneSession (updateOnlineActivity tbl uid now)) ∧
    (∀ (env : Env) (tbl : List ModeRow) (m : String) (uid chat : Int) (now : Nat),
      atMostOneSession tbl → atMostOneSession (toggleSayMode env tbl m uid chat now)) ∧
    (∀ (env : Env) (tbl : List ModeRow) (m m' : String) (uid chat : Int) (now : Nat),
      canUseBot env uid = true → env.sayBlocked uid = false →
      getOnlineMode tbl uid = some m' → m' ≠ m →
      getOnlineMode (toggleSayMode env tbl m uid chat now) uid = some m ∧
      getOnlineModeSource (toggleSayMode env tbl m uid chat now) uid = some chat) := by
  refine ⟨atMostOneSession_set, atMostOneSession_remove, atMostOneSession_update, ?_, ?_⟩
  · intro env tbl m uid chat now h
    unfold toggleSayMode
    split
    · exact h
    split
    · exact h
    split
    · exact atMostOneSession_remove tbl uid h
    · exact atMostOneSession_set tbl uid m (some chat) now h
  · intro env tbl m m' uid chat now hc hb hcur hne
    have hstep : toggleSayMode env tbl m uid chat now =
        setOnlineMode tbl uid m (some chat) now := by
      unfold toggleSayMode
      have hnm : ¬ (getOnlineMode tbl uid = some m) := by
        rw [hcur]
        intro habs
        exact hne (Option.some.inj habs)
      simp [hc, hb, hnm]
    rw [hstep]
    exact ⟨getOnlineMode_set_self tbl uid m (some chat) now,
      getOnlineModeSource_set_self tbl uid m (some chat) now⟩

theorem session_store_one_per_principal_witness :
    getOnlineMode
      (toggleSayMode sessDemoEnv [⟨9, "sayson", 0, 0, some 500⟩] "sayon" 9 600 3) 9 =
        some "sayon" ∧
    getOnlineModeSource
      (toggleSayMode sessDemoEnv [⟨9, "sayson", 0, 0, some 500⟩] "sayon" 9 600 3) 9 =
        some 600 :=
  session_store_one_per_principal.2.2.2.2 sessDemoEnv [⟨9, "sayson", 0, 0, some 500⟩]
    "sayon" "sayson" 9 600 3 (by decide) (by decide) (by decide) (by decide)

/-! ## Claim C6 -/

theorem forwardAction_isSome (m : String) (dest : Int) (ev : MsgEvent)
    (hm : m = "sayon" ∨ m = "sayson") : (forwardAction m dest ev).isSome = true := by
  rcases hm with rfl | rfl
  · unfold forwardAction
    rw [if_pos rfl]
    cases htx : truthy ev.text? with
    | some t => simp
    | none =>
      cases hca : truthy ev.caption? with
      | some ca => simp
      | none => simp
  · unfold forwardAction
    rw [if_neg (by decide), if_pos rfl]
    cases htx : truthy ev.text? with
    | some t => simp
    | none =>
      cases hca : truthy ev.caption? with
      | some ca => simp
      | none => simp

/-- C6: source affinity.  A non-Owner principal's message is forwarded
only when the originating chat equals the session's `source_chat_id`;
an Owner's message is forwarded regardless of origin chat, given an
active recognised mode, a configured broadcast chat, and a message that
is not one of the dash-deletion shortcuts. -/
theorem forward_source_affinity :
    (∀ (env : Env) (ev : MsgEvent) (f : FwdAction),
      isOwner env ev.uid = false → handleAllMessages env ev = some f →
      getOnlineModeSource env.modes ev.uid = some ev.chatId) ∧
    (∀ (env : Env) (ev : MsgEvent) (d : Int) (m : String),
      isOwner env ev.uid = true → env.userChatId = some d →
      getOnlineMode env.modes ev.uid = some m → (m = "sayon" ∨ m = "sayson") →
      isDashDelete ev.text? = false →
      (handleAllMessages env ev).isSome = true) := by
  constructor
  · intro env ev f howner hfwd
    unfold handleAllMessages at hfwd
    split at hfwd
    · exact absurd hfwd (by simp)
    split at hfwd
    · exact absurd hfwd (by simp)
    split at hfwd
    · exact absurd hfwd (by simp)
    split at hfwd
    · exact absurd hfwd (by simp)
    split at hfwd
    · exact absurd hfwd (by simp)
    · rename_i hcond
      rw [howner] at hcond
      simpa using hcond
  · intro env ev d m howner hdest hmode hm hdash
    have hcan : canUseBot env ev.uid = true := by
      unfold canUseBot
      rw [howner]
      rfl
    unfold handleAllMessages
    rw [hcan, hdash, hdest, hmode, howner]
    simp only [Bool.not_true, Bool.false_and, Bool.false_eq_true, if_false]
    exact forwardAction_isSome m d ev hm

/-- Environment for the C6 witness: principal 7 is a head admin with a
Signed session sourced in chat 600; principal 9 is an Owner with a
Signed session sourced in chat 500. -/
def affinityEnv : Env :=
  { ownerIds := [9], userChatId := some 42,
    role := fun u => if u = 7 then some "head_admin" else none,
    sayBlocked := fun _ => false, templates := [], media := [], aliases := [],
    modes := [⟨7, "sayon", 0, 0, some 600⟩, ⟨9, "sayon", 0, 0, some 500⟩],
    dbUserByUsername := fun _ => none, tgUserByUsername := fun _ => none,
    customName := fun _ => none, handlers := fun _ => false }

/-- Head admin 7 sends from chat 600 (matching the session source). -/
def affinityEvAdmin : MsgEvent :=
  { uid := 7, chatId := 600, text? := some "hi".data, caption? := none,
    fullName? := some "Ann".data, username? := some "ann".data, messageId := 1 }

/-- Owner 9 sends from chat 777, not the session source 500. -/
def affinityEvOwner : MsgEvent :=
  { uid := 9, chatId := 777, text? := some "hello".data, caption? := none,
    fullName? := some "Alice".data, username? := some "ownerhandle".data, messageId := 2 }

theorem forward_source_affinity_witness :
    getOnlineModeSource affinityEnv.modes 7 = some 600 ∧
    (handleAllMessages affinityEnv affinityEvOwner).isSome = true :=
  ⟨forward_source_affinity.1 affinityEnv affinityEvAdmin
      (.sendText 42 ("hi\n\n— Ann @ann".data)) (by decide) (by decide),
    forward_source_affinity.2 affinityEnv affinityEvOwner 42 "sayon"
      (by decide) (by decide) (by decide) (Or.inl rfl) (by decide)⟩

/-! ## Claim C5 -/

/-- C5 counterexample input: Owner Alice (@ownerhandle) sends "hello"
under a Signed-mode session. -/
def sigDemoEv : MsgEvent :=
  { uid := 9, chatId := 500, text? := some "hello".data, caption? := none,
    fullName? := some "Alice".data, username? := some "ownerhandle".data, messageId := 1 }

/-- C5 counterexample: the Signed-mode forward of "hello" is
"hello\n\n— Alice @ownerhandle" — the handle is *not* wrapped in
parentheses, so the claimed "hello\n\n— Alice (@ownerhandle)" is not
produced. -/
theorem signed_signature_counterexample :
    forwardAction "sayon" 42 sigDemoEv =
      some (.sendText 42 ("hello\n\n— Alice @ownerhandle".data)) ∧
    forwardAction "sayon" 42 sigDemoEv ≠
      some (.sendText 42 ("hello\n\n— Alice (@ownerhandle)".data)) := by
  decide

/-- C5 amended: for every forwarded text or caption, Signed mode
appends exactly one signature suffix of the form
`"\n\n— <full name> @handle"` (no parentheses around the handle, and an
empty handle part when the sender has none) to the sanitised body;
Anonymous mode appends nothing. -/
theorem signed_signature_form (dest : Int) (ev : MsgEvent) (t ca : Str) :
    (truthy ev.text? = some t →
      forwardAction "sayon" dest ev = some (.sendText dest
        (safeSend t ++ ("\n\n— ".data ++ safeSend (orUnknown ev.fullName?) ++ " ".data
          ++ sigUsername ev.username?))) ∧
      forwardAction "sayson" dest ev = some (.sendText dest (safeSend t))) ∧
    (truthy ev.text? = none → truthy ev.caption? = some ca →
      forwardAction "sayon" dest ev = some (.sendText dest
        (safeSend ca ++ ("\n\n— ".data ++ safeSend (orUnknown ev.fullName?) ++ " ".data
          ++ sigUsername ev.username?))) ∧
      forwardAction "sayson" dest ev = some (.sendText dest (safeSend ca))) := by
  constructor
  · intro htx
    constructor
    · unfold forwardAction sayonSignature
      rw [if_pos rfl, htx]
    · unfold forwardAction
      rw [if_neg (by decide), if_pos rfl, htx]
  · intro htx hca
    constructor
    · unfold forwardAction sayonSignature
      rw [if_pos rfl, htx, hca]
    · unfold forwardAction
      rw [if_neg (by decide), if_pos rfl, htx, hca]

theorem signed_signature_form_witness :
    forwardAction "sayon" 42 sigDemoEv = some (.sendText 42
      (safeSend ("hello".data) ++ ("\n\n— ".data ++
        safeSend (orUnknown sigDemoEv.fullName?) ++ " ".data
        ++ sigUsername sigDemoEv.username?))) ∧
    forwardAction "sayson" 42 sigDemoEv =
      some (.sendText 42 (safeSend ("hello".data))) :=
  (signed_signature_form 42 sigDemoEv ("hello".data) []).1 (by decide)

/-! ## Claim C8 -/

/-- A one-command store for chat 5: command id 1 with one media row. -/
def cascadeDemoCmds : List TemplateCmd := [⟨1, 5, "hi".data, "@s1 вітає @s2".data⟩]

/-- The media pool of command 1. -/
def cascadeDemoMedia : List MediaRow := [⟨10, 1, "photo", "f".data⟩]

/-- C8: `delete_personal_command` deletes the command row, but because
`get_connection` never issues `PRAGMA foreign_keys = ON`, the
`ON DELETE CASCADE` declared on `personal_command_media` is not
enforced and the media row keyed to the deleted command's id is still
retrievable afterwards — contradicting the declared cascade. -/
theorem delete_command_leaves_media :
    (deletePersonalCommand cascadeDemoCmds cascadeDemoMedia 5 ("hi".data)).1 = [] ∧
    getPersonalCommandMedia
      (deletePersonalCommand cascadeDemoCmds cascadeDemoMedia 5 ("hi".data)).2 1 =
      [⟨10, 1, "photo", "f".data⟩] := by
  decide

/-! ## Claim C10 -/

/-- C10: the template stage normalises the inbound text with
`.strip().lower()` before matching and rendering, so dispatching a text
and dispatching its lowercased form produce the same rendered output
(and the same media pool). -/
theorem template_stage_lowercase_invariant (env : Env) (chat uid : Int)
    (fullName? : Option Str) (replyUser? : Option UserRef) (raw : Str) :
    templateOutputFor env chat uid fullName? replyUser? (lowerS raw) =
    templateOutputFor env chat uid fullName? replyUser? raw := by
  unfold templateOutputFor
  rw [normText_lowerS]

/-! ## Claim C1 -/

/-- Environment for C1: chat 100 has a template command "бан" and an
alias "бан" → ban; the handle `@ghostuser` resolves nowhere. -/
def ghostEnv : Env :=
  { ownerIds := [1], userChatId := some 42,
    role := fun _ => none, sayBlocked := fun _ => false,
    templates := [⟨7, 100, "бан".data, "@s1 карає @s2".data⟩], media := [],
    aliases := [⟨100, "бан".data, "ban".data⟩], modes := [],
    dbUserByUsername := fun _ => none, tgUserByUsername := fun _ => none,
    customName := fun _ => none, handlers := fun c => decide (c = "ban".data) }

/-- Owner 1 sends "бан @ghostuser" in chat 100, with no reply target. -/
def ghostEv : Event :=
  { rawText? := some "бан @ghostuser".data, userId? := some 1, chatId := 100,
    fullName? := some "Adm".data, username? := none, replyUser? := none }

/-- C1 counterexample: the template "бан" matches and no secondary
participant resolves (no directory hit, no external hit, no reply), yet
dispatch does not end at the template stage: the alias-resolution stage
runs and dispatches the canonical `ban` command. -/
theorem template_abort_counterexample :
    selectTemplate (getAllPersonalCommands ghostEnv.templates 100)
      (normText ("бан @ghostuser".data)) =
      some ⟨7, 100, "бан".data, "@s1 карає @s2".data⟩ ∧
    resolveTarget ghostEnv none
      (stripS ((normText ("бан @ghostuser".data)).drop 3)) = none ∧
    dispatch ghostEnv ghostEv = .aliasInvoke ("ban".data) ["@ghostuser".data] := by
  decide

/-- C1 amended: when a template command matches but no secondary
participant resolves, the template stage emits nothing, and dispatch
falls through to the later stages (capability gate, session
forwarding, phrase commands, restore tokens, alias resolution) instead
of terminating. -/
theorem template_unresolved_falls_through
    (env : Env) (ev : Event) (raw : Str) (uid : Int) (cmd : TemplateCmd)
    (hraw : ev.rawText? = some raw) (hne : raw ≠ []) (huid : ev.userId? = some uid)
    (hsel : selectTemplate (getAllPersonalCommands env.templates ev.chatId)
      (normText raw) = some cmd)
    (hres : resolveTarget env ev.replyUser?
      (stripS ((normText raw).drop cmd.name.length)) = none) :
    dispatch env ev = laterStages env ev uid raw (normText raw) := by
  have htout : templateOutputFor env ev.chatId uid ev.fullName? ev.replyUser? raw = none := by
    unfold templateOutputFor runTemplate
    simp only [hsel, hres]
  unfold dispatch
  simp only [hraw, huid, htout, if_neg hne]

theorem template_unresolved_falls_through_witness :
    dispatch ghostEnv ghostEv =
      laterStages ghostEnv ghostEv 1 ("бан @ghostuser".data)
        (normText ("бан @ghostuser".data)) :=
  template_unresolved_falls_through ghostEnv ghostEv ("бан @ghostuser".data) 1
    ⟨7, 100, "бан".data, "@s1 карає @s2".data⟩
    (by decide) (by decide) (by decide) (by decide) (by decide)

/-! ## Claim C2 -/

/-- Environment for C2: principal 7 is a head admin with a Signed
session sourced in chat 600. -/
def sessShortEnv : Env :=
  { ownerIds := [], userChatId := some 42,
    role := fun u => if u = 7 then some "head_admin" else none,
    sayBlocked := fun _ => false, templates := [], media := [], aliases := [],
    modes := [⟨7, "sayon", 0, 0, some 600⟩],
    dbUserByUsername := fun _ => none, tgUserByUsername := fun _ => none,
    customName := fun _ => none, handlers := fun _ => false }

/-- Principal 7 sends the phrase "давай права" from chat 700 (not the
session's source chat). -/
def sessShortEv : Event :=
  { rawText? := some "давай права".data, userId? := some 7, chatId := 700,
    fullName? := some "Hm".data, username? := none, replyUser? := none }

/-- C2 counterexample: principal 7 has an active BroadcastSession, yet
dispatch is not delegated to the session engine: the source-affinity
test fails and the phrase-command stage runs. -/
theorem session_shortcircuit_counterexample :
    getOnlineMode sessShortEnv.modes 7 = some "sayon" ∧
    dispatch sessShortEnv sessShortEv = .phraseCmd "giveperm" [] := by
  decide

/-- C2 amended: for an actor with an active BroadcastSession, dispatch
is delegated entirely to the session engine and terminates only when
the actor is an Owner or the event's chat equals the session's source
chat; in that case no phrase/restore/alias stage runs. -/
theorem session_shortcircuit_terminal
    (env : Env) (ev : Event) (raw : Str) (uid : Int) (mode : String)
    (hraw : ev.rawText? = some raw) (hne : raw ≠ []) (huid : ev.userId? = some uid)
    (htpl : templateOutputFor env ev.chatId uid ev.fullName? ev.replyUser? raw = none)
    (hadm : (isOwner env uid || decide (env.role uid = some "head_admin")) = true)
    (hmode : getOnlineMode env.modes uid = some mode)
    (haff : (isOwner env uid ||
      decide (getOnlineModeSource env.modes uid = some ev.chatId)) = true) :
    dispatch env ev = sessionStage env uid raw ev.fullName? ev.username? mode := by
  unfold dispatch
  simp only [hraw, huid, htpl, if_neg hne]
  unfold laterStages
  rw [hadm]
  simp only [Bool.not_true, Bool.false_eq_true, if_false, hmode, haff, if_true]

/-- Owner 9 with a Signed session sourced in chat 500. -/
def sessOwnerEnv : Env :=
  { ownerIds := [9], userChatId := some 42,
    role := fun _ => none, sayBlocked := fun _ => false,
    templates := [], media := [], aliases := [],
    modes := [⟨9, "sayon", 0, 0, some 500⟩],
    dbUserByUsername := fun _ => none, tgUserByUsername := fun _ => none,
    customName := fun _ => none, handlers := fun _ => false }

/-- Owner 9 sends "Привіт" from chat 700. -/
def sessOwnerEv : Event :=
  { rawText? := some "Привіт".data, userId? := some 9, chatId := 700,
    fullName? := some "Alice".data, username? := some "ownerhandle".data,
    replyUser? := none }

theorem session_shortcircuit_terminal_witness :
    dispatch sessOwnerEnv sessOwnerEv =
      sessionStage sessOwnerEnv 9 ("Привіт".data) sessOwnerEv.fullName?
        sessOwnerEv.username? "sayon" :=
  session_shortcircuit_terminal sessOwnerEnv sessOwnerEv ("Привіт".data) 9 "sayon"
    (by decide) (by decide) (by decide) (by decide) (by decide) (by decide) (by decide)

/-! ## Claim C3 -/

/-- Environment for C3: chat 100 has aliases "бан" → ban and
"бан тихо" → ban_silent, both with registered handlers. -/
def aliasDemoEnv : Env :=
  { ownerIds := [1], userChatId := some 42,
    role := fun _ => none, sayBlocked := fun _ => false,
    templates := [], media := [],
    aliases := [⟨100, "бан".data, "ban".data⟩,
                ⟨100, "бан тихо".data, "ban_silent".data⟩],
    modes := [],
    dbUserByUsername := fun _ => none, tgUserByUsername := fun _ => none,
    customName := fun _ => none,
    handlers := fun c => decide (c = "ban".data ∨ c = "ban_silent".data) }

/-- Owner 1 sends "бан тихо 12345" in chat 100. -/
def aliasDemoEv : Event :=
  { rawText? := some "бан тихо 12345".data, userId? := some 1, chatId := 100,
    fullName? := some "Adm".data, username? := none, replyUser? := none }

/-- C3 counterexample: with aliases "бан" → ban and "бан тихо" →
ban_silent registered, the message "бан тихо 12345" dispatches
ban(["тихо","12345"]), not ban_silent(["12345"]): only the first token
is ever tried against the alias table. -/
theorem alias_longest_run_counterexample :
    dispatch aliasDemoEnv aliasDemoEv =
      .aliasInvoke ("ban".data) ["тихо".data, "12345".data] ∧
    dispatch aliasDemoEnv aliasDemoEv ≠
      .aliasInvoke ("ban_silent".data) ["12345".data] := by
  decide

/-- C3 amended: alias resolution looks up only the first
whitespace-delimited token of the text against the chat's registered
aliases (longer leading runs are never tried), and on a hit dispatches
the aliased canonical command with all remaining tokens as arguments. -/
theorem alias_first_token_resolution
    (env : Env) (ev : Event) (raw text : Str) (uid : Int) (target : Str)
    (hraw : ev.rawText? = some raw) (hne : raw ≠ []) (huid : ev.userId? = some uid)
    (htext : text = normText raw)
    (htpl : templateOutputFor env ev.chatId uid ev.fullName? ev.replyUser? raw = none)
    (hadm : (isOwner env uid || decide (env.role uid = some "head_admin")) = true)
    (hmode : getOnlineMode env.modes uid = none)
    (hp1 : ¬ (text = "давай права".data ∨ text = "дай адмінку".data ∨
      text = "дай все права".data ∨ text = "давай адмінку".data))
    (hp2 : ¬ (text = "дати звичайну адміну".data ∨ text = "дати звичайну адмінку".data ∨
      text = "дати адмінку звичайну".data ∨ text = "дай звичайну адмінку".data ∨
      text = "звичайна адмінка".data ∨ text = "обичная админка".data))
    (hp3 : ¬ (text = "забрати права".data ∨ text = "зняти адмінку".data))
    (hp4 : ¬ (text = "адміністратори".data ∨ text = "администраторы".data ∨
      text = "адміни".data))
    (hp5 : ("одружити".data).isPrefixOf text = false)
    (hp6 : ("розлучити".data).isPrefixOf text = false)
    (hp7 : ("розлучи".data).isPrefixOf text = false)
    (hr1 : findBackupCode text = none)
    (hr2 : isBareBackupCode text = false)
    (hlookup : getCommandAlias env.aliases ev.chatId ((splitWs text).headD []) =
      some target)
    (hhandler : env.handlers (lowerS (target.dropWhile (fun c => c = '/'))) = true) :
    dispatch env ev =
      .aliasInvoke (lowerS (target.dropWhile (fun c => c = '/')))
        ((splitWs text).drop 1) := by
  subst htext
  unfold dispatch
  simp only [hraw, huid, htpl, if_neg hne]
  unfold laterStages
  rw [hadm]
  simp only [Bool.not_true, Bool.false_eq_true, if_false, hmode]
  unfold phraseStages
  rw [if_neg hp1, if_neg hp2, if_neg hp3, if_neg hp4]
  simp only [hp5, hp6, hp7, Bool.false_eq_true, if_false]
  unfold restoreStage
  simp only [hr1, hr2, Bool.false_eq_true, if_false]
  unfold aliasStage
  simp only [hlookup, hhandler, if_true]

theorem alias_first_token_resolution_witness :
    dispatch aliasDemoEnv aliasDemoEv =
      .aliasInvoke
        (lowerS (("ban".data).dropWhile (fun c => c = '/')))
        ((splitWs (normText ("бан тихо 12345".data))).drop 1) :=
  alias_first_token_resolution aliasDemoEnv aliasDemoEv ("бан тихо 12345".data)
    (normText ("бан тихо 12345".data)) 1 ("ban".data)
    (by decide) (by decide) (by decide) rfl (by decide) (by decide) (by decide)
    (by decide) (by decide) (by decide) (by decide) (by decide) (by decide)
    (by decide) (by decide) (by decide) (by decide) (by decide)

end Santa
